import Mathlib

/-!
Shallow embedding of the EventRegistrationBot core logic from form_bot.py:
outcome classification (check_result), field resolution and form filling
(fill_form), the submit stage (submit_form, whose body evaluates the
locator attribute By.TYPE that the Selenium By class does not expose and
therefore always returns False through its outer exception handler),
single-record orchestration (process_test_case), batch iteration
(run_from_csv) and the report summary (save_results_log). The browser is
modelled as an abstract page state answering the element queries the code
issues; a Python success value in {True, False, None} is modelled as
Option Bool (some true, some false, none).
-/

namespace EventBot

/-- Does needle occur as a contiguous run starting at some position of hay? -/
def infixOfAux (needle : List Char) : List Char → Bool
  | [] => needle.isEmpty
  | c :: rest => needle.isPrefixOf (c :: rest) || infixOfAux needle rest

/-- Substring containment, modelling the Python needle-in-hay test. -/
def containsSub (hay needle : String) : Bool :=
  infixOfAux needle.data hay.data

/-- Characterwise lowercasing, modelling the Python str.lower call. -/
def lower (s : String) : String :=
  ⟨s.data.map Char.toLower⟩

/-- Success keywords from check_result (form_bot.py lines 224-227). -/
def success_indicators : List String :=
  ["success", "thank you", "registered", "confirmation",
   "submitted", "complete", "received", "congratulations"]

/-- Failure keywords from check_result (form_bot.py lines 236-239). -/
def error_indicators : List String :=
  ["error", "invalid", "required", "missing", "failed",
   "incorrect", "please", "must", "cannot"]

/-- Redirect hints checked against the current URL (form_bot.py line 248). -/
def redirect_hints : List String := ["success", "thank", "confirm"]

/-- Embedding of check_result (form_bot.py lines 220-253): lowercases the
page source, checks success keywords first, then failure keywords, then
redirect hints in the lowercased URL, else Unknown. Returns the pair the
Python function returns: the success value and the message string. -/
def check_result (pageSource currentUrl : String) : Option Bool × String :=
  let page_text := lower pageSource
  if success_indicators.any (fun k => containsSub page_text k) then
    (some true, "Success")
  else if error_indicators.any (fun k => containsSub page_text k) then
    (some false, "Error detected")
  else
    let current_url := lower currentUrl
    if redirect_hints.any (fun w => containsSub current_url w) then
      (some true, "Success")
    else
      (none, "Unknown")

/-- Abstract page state. elementNames lists the names that
find-element-by-name resolves; hasEventOption models the structural
fallback query for the event value; the four submit flags describe which
submit controls exist on the page (the code as written never queries any
of them: submit_form fails before its first find_element call); hasForm
models the bounded wait for a form tag during navigation; pageSource and
currentUrl are what the classification step reads. -/
structure Page where
  elementNames : List String
  hasEventOption : Bool
  hasSubmitType : Bool
  hasSubmitTextButton : Bool
  hasSubmitValueInput : Bool
  hasSubmitClassButton : Bool
  hasForm : Bool
  pageSource : String
  currentUrl : String
deriving Repr, DecidableEq

/-- Embedding of navigate_to_form (form_bot.py lines 98-110): succeeds
exactly when the bounded wait finds a form element on the page. -/
def navigate_to_form (p : Page) : Bool := p.hasForm

/-- Candidate element names for the phone field, in the order the code
tries them (form_bot.py line 136). -/
def phone_selectors : List String := ["phone", "phone_number", "telephone", "mobile"]

/-- Embedding of the phone-field loop (form_bot.py lines 135-142): try the
candidates in list order, stopping at the first name present on the page;
none found models the loop ending with phone_field still None. -/
def resolvePhone (elementNames : List String) : Option String :=
  phone_selectors.find? (fun s => elementNames.contains s)

/-- How the event field got resolved, if at all. -/
inductive EventPick where
  | dropdown
  | structuralOption
deriving Repr, DecidableEq

/-- Embedding of the event section of fill_form (form_bot.py lines
152-165): try the dropdown named event first; on its absence fall back to
the structural option query; both absent is only logged. -/
def resolveEvent (p : Page) : Option EventPick :=
  if p.elementNames.contains "event" then some EventPick.dropdown
  else if p.hasEventOption then some EventPick.structuralOption
  else none

/-- Exceptions that element lookups raise in fill_form. -/
inductive LookupExc where
  | timeout
  | noSuchElement
deriving Repr, DecidableEq

/-- Embedding of the bounded-wait lookup for the name field (form_bot.py
lines 121-123): absence raises a timeout caught by the outer handler. -/
def waitPresenceByName (p : Page) (nm : String) : Except LookupExc Unit :=
  if p.elementNames.contains nm then Except.ok () else Except.error LookupExc.timeout

/-- Embedding of a direct find-element-by-name (form_bot.py line 129):
absence raises NoSuchElementException. -/
def findByName (p : Page) (nm : String) : Except LookupExc Unit :=
  if p.elementNames.contains nm then Except.ok () else Except.error LookupExc.noSuchElement

/-- Embedding of fill_form (form_bot.py lines 112-173): the name field is
fetched through the bounded wait and the email field through a direct
lookup, both inside the outer try whose handler returns False; the phone
and event fields are resolved best-effort with their absence swallowed by
inner handlers, after which the function returns True. -/
def fill_form (p : Page) : Bool :=
  match waitPresenceByName p "name" with
  | Except.error _ => false
  | Except.ok _ =>
    match findByName p "email" with
    | Except.error _ => false
    | Except.ok _ =>
      let _phone := resolvePhone p.elementNames
      let _event := resolveEvent p
      true

/-- Python exception kinds arising in the submit stage. -/
inductive PyExc where
  | attributeError
deriving Repr, DecidableEq

/-- Locator attributes that the Selenium By class exposes, modelled from
the Selenium WebDriver API the code imports at form_bot.py line 12: ID,
XPATH, LINK_TEXT, PARTIAL_LINK_TEXT, NAME, TAG_NAME, CLASS_NAME and
CSS_SELECTOR. The class has no TYPE attribute. -/
def selenium_By_attrs : List String :=
  ["ID", "XPATH", "LINK_TEXT", "PARTIAL_LINK_TEXT", "NAME", "TAG_NAME",
   "CLASS_NAME", "CSS_SELECTOR"]

/-- Attribute access on the By class: reading an attribute the class does
not expose raises AttributeError. -/
def getattr_By (attr : String) : Except PyExc String :=
  if selenium_By_attrs.contains attr then Except.ok attr
  else Except.error PyExc.attributeError

/-- Embedding of the selector-list construction at form_bot.py lines
179-184: the first tuple evaluates By.TYPE and the remaining three
evaluate By.XPATH, so the list literal exists only if every attribute
access succeeds; the By.TYPE access raises AttributeError first. -/
def build_submit_selectors : Except PyExc (List (String × String)) :=
  match getattr_By "TYPE" with
  | Except.error e => Except.error e
  | Except.ok t =>
    match getattr_By "XPATH" with
    | Except.error e => Except.error e
    | Except.ok x =>
      Except.ok
        [(t, "submit"),
         (x, "//button[contains(text(), \x27Submit\x27)]"),
         (x, "//input[@value=\x27Submit\x27]"),
         (x, "//button[contains(@class, \x27submit\x27)]")]

/-- Embedding of submit_form (form_bot.py lines 175-207): the body starts
by constructing the selector list, whose first entry evaluates By.TYPE;
that access raises AttributeError, which the outer handler at lines
205-207 catches, so the function returns False without issuing a single
element query or click, whatever the page offers. The fallback loop at
lines 186-203, including the Submit button not found branch at line 202,
is unreachable dead code; since the ok branch below can never be taken
(build_submit_selectors is an error by computation), the loop is left
unmodelled there. -/
def submit_form (_p : Page) : Bool :=
  match build_submit_selectors with
  | Except.error _ => false
  | Except.ok _ => false

/-- Embedding of take_screenshot (form_bot.py lines 209-218): returns the
screenshot path on success and None when saving raised, the exception
being caught inside the function itself. -/
def take_screenshot (saveOk : Bool) (filename : String) : Option String :=
  if saveOk then some ("screenshots/" ++ filename) else none

/-- Stages of processing one record, for tracking which ones ran. -/
inductive Stage where
  | navigate
  | fill
  | submit
  | classify
  | screenshot
deriving Repr, DecidableEq

/-- Environment for one record: the page state the browser presents and
whether saving a screenshot would succeed, plus the timestamp string used
in the screenshot filename. -/
structure Env where
  page : Page
  screenshotOk : Bool
  timestamp : String
deriving Repr, DecidableEq

/-- Result of processing one record: the pair the Python function returns,
instrumented with the list of stages that were attempted, in order, and
the evidence path the screenshot call produced. -/
structure ProcResult where
  success : Option Bool
  message : String
  stages : List Stage
  evidence : Option String
deriving Repr, DecidableEq

/-- Embedding of process_test_case (form_bot.py lines 259-288): navigate,
fill and submit in sequence, each failure returning immediately with its
stage-specific message; on reaching classification the classifier's pair
is returned and a screenshot is attempted whose result is discarded. -/
def process_test_case (env : Env) (test_case_num : Nat) : ProcResult :=
  if !(navigate_to_form env.page) then
    ⟨some false, "Navigation failed", [Stage.navigate], none⟩
  else if !(fill_form env.page) then
    ⟨some false, "Form filling failed", [Stage.navigate, Stage.fill], none⟩
  else if !(submit_form env.page) then
    ⟨some false, "Form submission failed", [Stage.navigate, Stage.fill, Stage.submit], none⟩
  else
    let r := check_result env.page.pageSource env.page.currentUrl
    let screenshot_name :=
      "test_case_" ++ toString test_case_num ++ "_" ++ env.timestamp ++ ".png"
    let path := take_screenshot env.screenshotOk screenshot_name
    ⟨r.1, r.2, [Stage.navigate, Stage.fill, Stage.submit, Stage.classify, Stage.screenshot], path⟩

/-- One CSV row: the logical keys the code reads, each possibly absent
since the dict lookups use get with default Unknown. -/
structure Record where
  name : Option String
  email : Option String
  phone : Option String
  event : Option String
  url : Option String
deriving Repr, DecidableEq

/-- What processing one record did: returned a pair normally, or raised an
exception carrying a message. -/
inductive ProcOutcome where
  | ok (success : Option Bool) (message : String)
  | exn (msg : String)
deriving Repr, DecidableEq

/-- One entry of the result list built by run_from_csv (form_bot.py lines
303-314 and 326-336). -/
structure RecordResult where
  test_case : Nat
  name : String
  email : String
  phone : String
  event : String
  url : String
  success : Option Bool
  message : String
deriving Repr, DecidableEq

/-- Echo of a record field via dict get with default (form_bot.py line 305). -/
def getField (o : Option String) : String := o.getD "Unknown"

/-- Builds the result dict for record number i from what processing it did:
the normal pair in the try branch, or the synthesized failure entry of the
except branch (form_bot.py lines 301-336). -/
def mkResult (i : Nat) (r : Record) : ProcOutcome → RecordResult
  | ProcOutcome.ok s m =>
      ⟨i, getField r.name, getField r.email, getField r.phone,
       getField r.event, getField r.url, s, m⟩
  | ProcOutcome.exn m =>
      ⟨i, getField r.name, getField r.email, getField r.phone,
       getField r.event, getField r.url, some false, "Exception: " ++ m⟩

/-- The enumerate loop of run_from_csv (form_bot.py lines 300-336), with i
the one-based index of the next record: every record yields exactly one
result and an exception from processing is converted, not propagated. -/
def runLoop (proc : Nat → Record → ProcOutcome) (i : Nat) : List Record → List RecordResult
  | [] => []
  | r :: rs => mkResult i r (proc i r) :: runLoop proc (i + 1) rs

/-- Embedding of run_from_csv after CSV parsing (form_bot.py lines
299-340): iterate the records with one-based numbering. The per-record
behavior, including the possibility that process_test_case raises, is
supplied by the proc argument. -/
def run_from_csv (proc : Nat → Record → ProcOutcome) (records : List Record) : List RecordResult :=
  runLoop proc 1 records

/-- Python truthiness of a success value in {True, False, None}: only True
is truthy (form_bot.py lines 317, 364, 371). -/
def truthy : Option Bool → Bool
  | some b => b
  | none => false

/-- The Status line of one report entry (form_bot.py line 364). -/
def statusOf (success : Option Bool) : String :=
  if truthy success then "SUCCESS" else "FAILURE"

/-- The Successful tally of the summary (form_bot.py line 371): the count
of results whose success value is truthy. -/
def successfulCount (results : List RecordResult) : Nat :=
  (results.filter (fun r => truthy r.success)).length

/-- The Failed tally of the summary (form_bot.py line 375): total minus
successful. -/
def failedCount (results : List RecordResult) : Nat :=
  results.length - successfulCount results

/-- Fixture: a page where navigation and filling succeed and every one of
the four submit controls is present, with a thank-you page text. -/
def pageAllOk : Page :=
  ⟨["name", "email", "phone", "event"], false, true, true, true, true, true,
   "Thank you for registering", "http://example.com/form"⟩

/-- Fixture: a page where the bounded wait for a form element fails. -/
def pageNoForm : Page :=
  ⟨[], false, false, false, false, false, false, "", ""⟩

/-- Fixture: a page exposing a name field but no email field. -/
def pageNoEmail : Page :=
  ⟨["name"], false, true, false, false, false, true, "x", "http://example.com/x"⟩

/-- Fixture environments built from the pages above. -/
def envAllOk : Env := ⟨pageAllOk, true, "20240101_120000"⟩

def envNoForm : Env := ⟨pageNoForm, true, "20240101_120000"⟩

def envNoEmail : Env := ⟨pageNoEmail, true, "20240101_120000"⟩

/-- Fixture: one CSV row with every key present. -/
def recW : Record :=
  ⟨some "Ada", some "ada at example dot com", some "555", some "Expo",
   some "http://example.com/form"⟩

/-- Fixture: a per-record behavior that raises on every record. -/
def procW : Nat → Record → ProcOutcome := fun _ _ => ProcOutcome.exn "boom"

/-- Fixture: a result entry whose classification was Unknown. -/
def resUnknown : RecordResult :=
  ⟨1, "Ada", "ada at example dot com", "555", "Expo", "http://example.com/form",
   none, "Unknown"⟩

/-- Helper: the loop yields one result per record. -/
theorem runLoop_length (proc : Nat → Record → ProcOutcome) (rs : List Record) :
    ∀ i : Nat, (runLoop proc i rs).length = rs.length := by
  induction rs with
  | nil => intro i; rfl
  | cons r rs ih => intro i; simp [runLoop, ih]

/-- Helper: the result at position j is built from the record at position j
with one-based index i + j. -/
theorem runLoop_getElem? (proc : Nat → Record → ProcOutcome) (rs : List Record) :
    ∀ i j : Nat,
      (runLoop proc i rs)[j]? = (rs[j]?).map (fun r => mkResult (i + j) r (proc (i + j) r)) := by
  induction rs with
  | nil => intro i j; simp [runLoop]
  | cons r rs ih =>
      intro i j
      cases j with
      | zero => simp [runLoop]
      | succ j =>
          simp only [runLoop, List.getElem?_cons_succ, ih (i + 1) j]
          have h : i + 1 + j = i + (j + 1) := by omega
          rw [h]

/-- Helper: a list splits into the entries satisfying a boolean predicate
and those falsifying it. -/
theorem length_filter_split {α : Type} (p : α → Bool) (l : List α) :
    (l.filter p).length + (l.filter (fun a => !(p a))).length = l.length := by
  induction l with
  | nil => rfl
  | cons a l ih =>
      cases h : p a <;> simp [List.filter, h, ← ih] <;> omega

/-- C2: for every page text containing at least one success keyword and at
least one failure keyword (case-insensitively), check_result returns
Success, because success keywords are checked before failure keywords. -/
theorem c2_success_keywords_precede_failure_keywords (text url : String)
    (hs : (success_indicators.any fun k => containsSub (lower text) k) = true)
    (_hf : (error_indicators.any fun k => containsSub (lower text) k) = true) :
    check_result text url = (some true, "Success") := by
  simp [check_result, hs]

/-- C2 witness: a page text holding both the success keyword thank you and
the failure keyword please is classified Success. -/
theorem c2_witness :
    check_result "Thank you, please correct your phone number" "http://example.com/form" =
      (some true, "Success") :=
  c2_success_keywords_precede_failure_keywords
    "Thank you, please correct your phone number" "http://example.com/form"
    (by decide) (by decide)

/-- C6 counterexample: on a page with no keywords and a URL containing
thank, check_result returns the pair (some true, Success); the returned
message is Success, not the logged phrase Redirected to success page, so
the claim about the returned message is false at this input. -/
theorem c6_counterexample :
    (success_indicators.any fun k => containsSub (lower "hello world") k) = false ∧
    (error_indicators.any fun k => containsSub (lower "hello world") k) = false ∧
    (redirect_hints.any fun w => containsSub (lower "http://example.com/thankpage") w) = true ∧
    check_result "hello world" "http://example.com/thankpage" = (some true, "Success") ∧
    check_result "hello world" "http://example.com/thankpage" ≠
      (some true, "Redirected to success page") := by
  decide

/-- C6 amended: for every pair where the text contains no success keyword
and no failure keyword but the lowercased URL contains a redirect hint,
check_result returns Success with the message Success; the phrase
Redirected to success page is only logged. -/
theorem c6_redirect_hint_gives_success (text url : String)
    (hs : (success_indicators.any fun k => containsSub (lower text) k) = false)
    (hf : (error_indicators.any fun k => containsSub (lower text) k) = false)
    (hr : (redirect_hints.any fun w => containsSub (lower url) w) = true) :
    check_result text url = (some true, "Success") := by
  simp [check_result, hs, hf, hr]

/-- C6 amended witness: neutral text with a thank URL is classified
Success with message Success. -/
theorem c6_witness :
    check_result "plain landing page" "http://example.com/thankpage" = (some true, "Success") :=
  c6_redirect_hint_gives_success "plain landing page" "http://example.com/thankpage"
    (by decide) (by decide) (by decide)

/-- C7 counterexample: when neither keyword set nor any redirect hint
matches, check_result returns the pair (none, Unknown); the returned
message is Unknown, not the logged phrase Form submission result unclear,
so the claim about the returned message is false at this input. -/
theorem c7_counterexample :
    (success_indicators.any fun k => containsSub (lower "hello world") k) = false ∧
    (error_indicators.any fun k => containsSub (lower "hello world") k) = false ∧
    (redirect_hints.any fun w => containsSub (lower "http://example.com/page") w) = false ∧
    check_result "hello world" "http://example.com/page" = (none, "Unknown") ∧
    check_result "hello world" "http://example.com/page" ≠
      (none, "Form submission result unclear") := by
  decide

/-- C7 amended: for every pair where the text contains no success keyword
and no failure keyword and the lowercased URL contains no redirect hint,
check_result returns Unknown with the message Unknown; the phrase Form
submission result unclear is only logged. -/
theorem c7_no_match_gives_unknown (text url : String)
    (hs : (success_indicators.any fun k => containsSub (lower text) k) = false)
    (hf : (error_indicators.any fun k => containsSub (lower text) k) = false)
    (hr : (redirect_hints.any fun w => containsSub (lower url) w) = false) :
    check_result text url = (none, "Unknown") := by
  simp [check_result, hs, hf, hr]

/-- C7 amended witness: neutral text and a neutral URL are classified
Unknown with message Unknown. -/
theorem c7_witness :
    check_result "plain landing page" "http://example.com/page" = (none, "Unknown") :=
  c7_no_match_gives_unknown "plain landing page" "http://example.com/page"
    (by decide) (by decide) (by decide)

/-- C9: the phone resolver tries the candidates exactly in the order
phone, phone_number, telephone, mobile and stops at the first name present
on the page; on a page exposing only mobile it resolves to mobile. -/
theorem c9_phone_candidates_tried_in_order :
    (∀ ns : List String, resolvePhone ns =
      if ns.contains "phone" then some "phone"
      else if ns.contains "phone_number" then some "phone_number"
      else if ns.contains "telephone" then some "telephone"
      else if ns.contains "mobile" then some "mobile"
      else none) ∧
    resolvePhone ["mobile"] = some "mobile" := by
  constructor
  · intro ns
    cases h1 : ns.contains "phone" <;> cases h2 : ns.contains "phone_number" <;>
      cases h3 : ns.contains "telephone" <;> cases h4 : ns.contains "mobile" <;>
      simp_all [resolvePhone, phone_selectors, List.find?]
  · decide

/-- C3: the submit stage never tries any selector strategy. Constructing
the selector list evaluates By.TYPE, an attribute the Selenium By class
does not expose; the resulting AttributeError is caught by the outer
handler and submit_form returns False for every page, even one offering
all four submit controls, so every record that survives filling ends as
Failure with message Form submission failed and nothing is ever clicked.
This contradicts both the claim and the repository's own test_submit_form,
which expects the first strategy to be queried and the found button to be
clicked, so the code, not the claim, is at fault. -/
theorem c3_submit_stage_never_runs :
    build_submit_selectors = Except.error PyExc.attributeError ∧
    (∀ p : Page, submit_form p = false) ∧
    submit_form pageAllOk = false ∧
    process_test_case envAllOk 1 =
      ⟨some false, "Form submission failed",
       [Stage.navigate, Stage.fill, Stage.submit], none⟩ := by
  refine ⟨rfl, fun p => rfl, rfl, by decide⟩

/-- C4: when navigation fails for a record, process_test_case returns a
Failure with message Navigation failed and neither filling nor submission
nor classification is attempted. -/
theorem c4_navigation_failure_short_circuits (env : Env) (num : Nat)
    (h : navigate_to_form env.page = false) :
    process_test_case env num = ⟨some false, "Navigation failed", [Stage.navigate], none⟩ ∧
    Stage.fill ∉ (process_test_case env num).stages ∧
    Stage.submit ∉ (process_test_case env num).stages ∧
    Stage.classify ∉ (process_test_case env num).stages := by
  have he : process_test_case env num =
      ⟨some false, "Navigation failed", [Stage.navigate], none⟩ := by
    simp [process_test_case, h]
  exact ⟨he, by rw [he]; decide, by rw [he]; decide, by rw [he]; decide⟩

/-- C4 witness: the fixture page without a form element produces the
Navigation failed record and attempts no later stage. -/
theorem c4_witness :
    process_test_case envNoForm 7 = ⟨some false, "Navigation failed", [Stage.navigate], none⟩ :=
  (c4_navigation_failure_short_circuits envNoForm 7 (by decide)).1

/-- C5 counterexample: a record whose page passes navigation and filling
and offers every submit control still ends as a Failure record with no
screenshot capture attempted, so capture is not attempted regardless of
the record's outcome. -/
theorem c5_counterexample :
    (process_test_case envAllOk 1).success = some false ∧
    Stage.screenshot ∉ (process_test_case envAllOk 1).stages ∧
    (process_test_case envAllOk 1).evidence = none := by
  decide

/-- C5 amended: no record ever has a screenshot capture attempted by
process_test_case. A record failing at navigation or filling returns
before the capture call, and every remaining record fails at the submit
stage because submit_form always returns False (the By.TYPE defect), so
the capture after classification is unreachable; for every environment the
attempted stages exclude both classification and the capture, the evidence
path is empty, and consequently the capture result never influences any
record's success value or message. -/
theorem c5_no_capture_is_ever_attempted (env : Env) (num : Nat) (b : Bool) :
    Stage.screenshot ∉ (process_test_case env num).stages ∧
    Stage.classify ∉ (process_test_case env num).stages ∧
    (process_test_case env num).evidence = none ∧
    (process_test_case env num).success = some false ∧
    process_test_case { env with screenshotOk := b } num = process_test_case env num := by
  obtain ⟨page, sOk, ts⟩ := env
  have hsub : submit_form page = false := rfl
  cases hn : navigate_to_form page <;> cases hf : fill_form page <;>
    simp [process_test_case, hn, hf, hsub]

/-- C8: fill_form succeeds exactly when the required name and email fields
are present; a record whose fill fails is reported with message Form
filling failed, while absence of the phone field and of the event field
never makes fill_form fail. -/
theorem c8_required_fields_name_email :
    (∀ p : Page,
      fill_form p = (p.elementNames.contains "name" && p.elementNames.contains "email")) ∧
    (∀ (env : Env) (num : Nat),
      navigate_to_form env.page = true → fill_form env.page = false →
        (process_test_case env num).success = some false ∧
        (process_test_case env num).message = "Form filling failed") ∧
    (∀ p : Page,
      p.elementNames.contains "name" = true → p.elementNames.contains "email" = true →
      resolvePhone p.elementNames = none → resolveEvent p = none →
        fill_form p = true) := by
  have hfe : ∀ p : Page,
      fill_form p = (p.elementNames.contains "name" && p.elementNames.contains "email") := by
    intro p
    by_cases h1 : "name" ∈ p.elementNames <;> by_cases h2 : "email" ∈ p.elementNames <;>
      simp [fill_form, waitPresenceByName, findByName, h1, h2]
  refine ⟨hfe, ?_, ?_⟩
  · intro env num hnav hfill
    constructor <;> simp [process_test_case, hnav, hfill]
  · intro p h1 h2 _ _
    rw [hfe p, h1, h2]
    rfl

/-- C8 witness: a page missing only the email field fails filling and the
record message is Form filling failed; the all-fields fixture fills
successfully. -/
theorem c8_witness :
    (process_test_case envNoEmail 3).message = "Form filling failed" :=
  (c8_required_fields_name_email.2.1 envNoEmail 3 (by decide) (by decide)).2

/-- C1: run_from_csv returns exactly one result per input record, in input
order with one-based numbering, and a record whose processing raised an
exception gets a synthesized entry with success some false and the message
Exception: followed by the exception text, the iteration continuing past
it; so the batch never aborts early. -/
theorem c1_one_result_per_record_in_order (proc : Nat → Record → ProcOutcome)
    (records : List Record) :
    (run_from_csv proc records).length = records.length ∧
    ∀ (j : Nat) (r : Record), records[j]? = some r →
      (run_from_csv proc records)[j]? = some (mkResult (j + 1) r (proc (j + 1) r)) ∧
      ∀ m : String, proc (j + 1) r = ProcOutcome.exn m →
        mkResult (j + 1) r (proc (j + 1) r) =
          ⟨j + 1, getField r.name, getField r.email, getField r.phone,
           getField r.event, getField r.url, some false, "Exception: " ++ m⟩ := by
  constructor
  · exact runLoop_length proc records 1
  · intro j r hj
    have hg := runLoop_getElem? proc records 1 j
    rw [hj] at hg
    have hadd : 1 + j = j + 1 := by omega
    rw [hadd] at hg
    refine ⟨hg, ?_⟩
    intro m hm
    rw [hm]
    rfl

/-- C1 witness: a one-record batch whose processing raises the exception
boom still yields one result, the synthesized failure entry. -/
theorem c1_witness :
    (run_from_csv procW [recW])[0]? =
      some ⟨1, "Ada", "ada at example dot com", "555", "Expo", "http://example.com/form",
            some false, "Exception: boom"⟩ :=
  (((c1_one_result_per_record_in_order procW [recW]).2 0 recW rfl).1).trans (by decide)

/-- C10: a record whose success value is None is reported with Status
FAILURE, only some true counts as truthy, and the Failed tally equals the
number of results whose success value is not truthy, so every Unknown
record is absorbed into the Failed count. -/
theorem c10_unknown_counts_as_failure :
    (∀ r : RecordResult, r.success = none → statusOf r.success = "FAILURE") ∧
    (∀ s : Option Bool, truthy s = true ↔ s = some true) ∧
    (∀ results : List RecordResult,
      failedCount results = (results.filter (fun r => !(truthy r.success))).length) := by
  refine ⟨?_, ?_, ?_⟩
  · intro r h
    rw [h]
    rfl
  · intro s
    cases s with
    | none => simp [truthy]
    | some b => cases b <;> simp [truthy]
  · intro results
    have h := length_filter_split (fun r : RecordResult => truthy r.success) results
    unfold failedCount successfulCount
    omega

/-- C10 witness: the fixture Unknown entry is reported FAILURE. -/
theorem c10_witness : statusOf resUnknown.success = "FAILURE" :=
  c10_unknown_counts_as_failure.1 resUnknown rfl

end EventBot
